import Mathlib

/-!
# Row classification and aggregation of `getSheetsData` (main.go)

A shallow embedding of the part of `getSheetsData` that runs after the
spreadsheet range has been fetched (main.go lines 115-184): the loop over
`resp.Values` that skips placeholder rows, reads the cells as text,
normalises the status, counts the four buckets and fills the `pageData` map.

Modelling choices:

* A Go `string` is a Lean `String`.  The cells come out of a JSON decoder, so
  they are valid UTF-8, and for valid UTF-8 a byte-wise `strings.Contains` and
  a character-wise one agree.
* A cell is an `interface{}`; the code only ever asks whether its dynamic type
  is `string`, so the other JSON scalars carry their payload untouched.
* `row[i]` on a short row and `row[i].(string)` on a non-string cell panic; the
  model returns `Except.error` with the reason.
* The counters are Go `int`s.  Each is at most `len(resp.Values)`, which is
  itself an `int`, so no counter can overflow and `Nat` is exact.
* `pageData` is a `map[string]any`; it is modelled as an association list that
  is read with `PageData.get`.  The line printed for an empty result set is
  not part of the returned value and is not modelled.
-/

namespace Tracker

/-- The record type `Manuskrip` of main.go (lines 19-30). -/
structure Manuskrip where
  NoPanggil : String
  Judul : String
  BIBID : String
  Bahasa : String
  Aksara : String
  Media : String
  Halaman : String
  Dimensi : String
  Status : String
  LinkOPAC : String
  deriving DecidableEq, Repr

/-- Dynamic type and value of one `interface{}` cell of `resp.Values`. -/
inductive Cell where
  | str (s : String)
  | num (n : Int)
  | bool (b : Bool)
  | null
  deriving DecidableEq, Repr

/-- One element of `resp.Values`: a `[]interface{}`. -/
abbrev Row := List Cell

/-- The two ways the loop body can panic. -/
inductive Abort where
  | indexOutOfRange (i : Nat)
  | notString (i : Nat)
  deriving DecidableEq, Repr

/-- The expression `row[i].(string)`: an index panic on a short row, a type
assertion panic on a cell that is not a string. -/
def cellString (row : Row) (i : Nat) : Except Abort String :=
  match row[i]? with
  | none => .error (.indexOutOfRange i)
  | some (.str s) => .ok s
  | some _ => .error (.notString i)

/-- Whether `sub` occurs in `s` as a contiguous block (on character lists). -/
def containsChars : List Char → List Char → Bool
  | [], sub => sub.isEmpty
  | c :: cs, sub => sub.isPrefixOf (c :: cs) || containsChars cs sub

/-- The library call `strings.Contains(s, substr)`. -/
def stringsContains (s substr : String) : Bool :=
  containsChars s.data substr.data

/-- The local variables of `getSheetsData` that the loop updates: the slice
`manuskrips` and the five counters (lines 116-120 and 125). -/
structure Acc where
  manuskrips : List Manuskrip
  manuskripsCount : Nat
  unggahCount : Nat
  postProcessingCount : Nat
  pemotretanCount : Nat
  penelusuranCount : Nat
  deriving DecidableEq, Repr

/-- The state before the first iteration: an empty slice, all counters 0. -/
def Acc.init : Acc :=
  { manuskrips := [], manuskripsCount := 0, unggahCount := 0,
    postProcessingCount := 0, pemotretanCount := 0, penelusuranCount := 0 }

/-- Lines 143-149: the status after the two rewriting `if`s. -/
def finalStatus (status linkOPAC : String) : String :=
  let status := if stringsContains status "unggah" then "unggah" else status
  if status == "unggah" && linkOPAC == "-" then "post processing" else status

/-- Lines 151-160: the `switch` that increments one of the four counters. -/
def countStatus (acc : Acc) (status : String) : Acc :=
  if status == "unggah" then { acc with unggahCount := acc.unggahCount + 1 }
  else if status == "post processing" then
    { acc with postProcessingCount := acc.postProcessingCount + 1 }
  else if status == "pemotretan" then
    { acc with pemotretanCount := acc.pemotretanCount + 1 }
  else { acc with penelusuranCount := acc.penelusuranCount + 1 }

/-- One iteration of the loop (lines 127-174). -/
def classifyRow (acc : Acc) (row : Row) : Except Abort Acc := do
  let noPanggil ← cellString row 0
  if noPanggil == "-" || noPanggil == "#REF!" then
    return acc
  let judul ← cellString row 1
  let bibID ← cellString row 2
  let bahasa ← cellString row 3
  let aksara ← cellString row 4
  let media ← cellString row 5
  let halaman ← cellString row 6
  let dimensi ← cellString row 7
  let status ← cellString row 8
  let linkOPAC ← cellString row 10
  let status := finalStatus status linkOPAC
  let acc := countStatus acc status
  let manuskrip : Manuskrip :=
    { NoPanggil := noPanggil, Judul := judul, BIBID := bibID, Bahasa := bahasa,
      Aksara := aksara, Media := media, Halaman := halaman, Dimensi := dimensi,
      Status := status, LinkOPAC := linkOPAC }
  return { acc with
    manuskrips := acc.manuskrips ++ [manuskrip],
    manuskripsCount := acc.manuskripsCount + 1 }

/-- The loop `for _, row := range resp.Values` (lines 126-175), started in
state `acc`; a panic in one iteration ends the whole loop. -/
def classifyRows (acc : Acc) : List Row → Except Abort Acc
  | [] => .ok acc
  | row :: rows =>
    match classifyRow acc row with
    | .error e => .error e
    | .ok acc' => classifyRows acc' rows

/-- A value stored in `pageData`: the record slice or an `int`. -/
inductive PageValue where
  | records (ms : List Manuskrip)
  | int (n : Nat)
  deriving DecidableEq, Repr

/-- The map `pageData` of type `map[string]any`. -/
abbrev PageData := List (String × PageValue)

/-- The map read `pageData[key]`; `none` when the key is absent. -/
def PageData.get (pd : PageData) (key : String) : Option PageValue :=
  List.lookup key pd

/-- Lines 177-182: the six entries written once the loop has finished. -/
def pageOf (acc : Acc) : PageData :=
  [("Manuskrips", .records acc.manuskrips),
   ("TotalManuskrips", .int acc.manuskripsCount),
   ("TotalUnggah", .int acc.unggahCount),
   ("TotalPostProcessing", .int acc.postProcessingCount),
   ("TotalPemotretan", .int acc.pemotretanCount),
   ("TotalPenelusuran", .int acc.penelusuranCount)]

/-- The function `getSheetsData` from the fetched rows on (lines 115-184):
an empty result set leaves `pageData` empty, otherwise the loop runs and its
final state is stored under the six keys. -/
def getSheetsData (values : List Row) : Except Abort PageData :=
  if values.length == 0 then
    .ok []
  else
    match classifyRows Acc.init values with
    | .error e => .error e
    | .ok acc => .ok (pageOf acc)

/-- The row of the end-to-end example of the specification. -/
def rowA1 : Row :=
  [.str "A1", .str "Title A", .str "B1", .str "id", .str "jawi",
   .str "manuscript", .str "10", .str "20x30", .str "unggah", .str "x", .str "-"]

/-- The state after a record has been counted (lines 151-160) and appended
(lines 173-174). -/
def Acc.push (acc : Acc) (m : Manuskrip) : Acc :=
  let acc := countStatus acc m.Status
  { acc with
    manuskrips := acc.manuskrips ++ [m],
    manuskripsCount := acc.manuskripsCount + 1 }

/-- Whether a cell is present and holds text. -/
def isText : Option Cell → Bool
  | some (.str _) => true
  | _ => false

/-- Whether the call number (cell 0) is one of the two placeholders for which
the specification skips the row. -/
def isSkipped (row : Row) : Bool :=
  row[0]? == some (.str "-") || row[0]? == some (.str "#REF!")

/-- The columns other than the call number that the specification reads. -/
def textColumns : List Nat := [1, 2, 3, 4, 5, 6, 7, 8, 10]

/-- A data-shape error in the words of the specification: cell 0 is missing or
not text, or the row is not skipped and one of the cells 1-8, 10 is missing or
not text. -/
def badRow (row : Row) : Bool :=
  !isText row[0]? || (!isSkipped row && textColumns.any fun i => !isText row[i]?)

/-- The cells 0-7 and 10 of a row, the ones copied into the record. -/
def cellsOf (row : Row) : List (Option Cell) :=
  [row[0]?, row[1]?, row[2]?, row[3]?, row[4]?, row[5]?, row[6]?, row[7]?, row[10]?]

/-- The nine fields of a record that are copied from the row, as text cells. -/
def fieldsOf (m : Manuskrip) : List (Option Cell) :=
  [some (.str m.NoPanggil), some (.str m.Judul), some (.str m.BIBID),
   some (.str m.Bahasa), some (.str m.Aksara), some (.str m.Media),
   some (.str m.Halaman), some (.str m.Dimensi), some (.str m.LinkOPAC)]

/-- A sample sheet: the example row twice, a placeholder row of two cells, an
uploaded row with a link, a row in photography, a row with a free-text status
and a "#REF!" row whose other cells are not text. -/
def sampleRows : List Row :=
  [rowA1,
   [.str "-", .str "Title B"],
   rowA1,
   [.str "A2", .str "T2", .str "B2", .str "jv", .str "jawa", .str "lontar", .str "5",
    .str "3x40", .str "sudah unggah", .null, .str "http://opac/2", .str "note"],
   [.str "A3", .str "T3", .str "B3", .str "id", .str "latin", .str "paper", .str "7",
    .str "10x15", .str "pemotretan", .str "", .str "-"],
   [.str "A4", .str "T4", .str "B4", .str "id", .str "latin", .str "paper", .str "9",
    .str "10x15", .str "selesai", .str "", .str "-"],
   [.str "#REF!", .num 3, .null]]

/-- The record made from the example row. -/
def recordA1 : Manuskrip :=
  { NoPanggil := "A1", Judul := "Title A", BIBID := "B1", Bahasa := "id", Aksara := "jawi",
    Media := "manuscript", Halaman := "10", Dimensi := "20x30",
    Status := "post processing", LinkOPAC := "-" }

/-- The loop state reached on the sample sheet. -/
def sampleAcc : Acc :=
  { manuskrips :=
      [recordA1, recordA1,
       { NoPanggil := "A2", Judul := "T2", BIBID := "B2", Bahasa := "jv", Aksara := "jawa",
         Media := "lontar", Halaman := "5", Dimensi := "3x40",
         Status := "unggah", LinkOPAC := "http://opac/2" },
       { NoPanggil := "A3", Judul := "T3", BIBID := "B3", Bahasa := "id", Aksara := "latin",
         Media := "paper", Halaman := "7", Dimensi := "10x15",
         Status := "pemotretan", LinkOPAC := "-" },
       { NoPanggil := "A4", Judul := "T4", BIBID := "B4", Bahasa := "id", Aksara := "latin",
         Media := "paper", Halaman := "9", Dimensi := "10x15",
         Status := "selesai", LinkOPAC := "-" }],
    manuskripsCount := 5, unggahCount := 1, postProcessingCount := 2,
    pemotretanCount := 1, penelusuranCount := 1 }

theorem cellString_ok_iff (row : Row) (i : Nat) (s : String) :
    cellString row i = .ok s ↔ row[i]? = some (.str s) := by
  unfold cellString
  split <;> simp_all
  rename_i h
  rw [List.getElem?_eq_none h]
  simp

theorem classifyRow_skip (acc : Acc) (row : Row) (c : String)
    (h0 : row[0]? = some (.str c)) (hc : c = "-" ∨ c = "#REF!") :
    classifyRow acc row = .ok acc := by
  have e0 : cellString row 0 = .ok c := (cellString_ok_iff row 0 c).2 h0
  unfold classifyRow
  rw [e0]
  rcases hc with rfl | rfl <;> rfl

theorem classifyRow_record (acc : Acc) (row : Row)
    (c0 c1 c2 c3 c4 c5 c6 c7 c8 c10 : String)
    (h0 : row[0]? = some (.str c0)) (h1 : row[1]? = some (.str c1))
    (h2 : row[2]? = some (.str c2)) (h3 : row[3]? = some (.str c3))
    (h4 : row[4]? = some (.str c4)) (h5 : row[5]? = some (.str c5))
    (h6 : row[6]? = some (.str c6)) (h7 : row[7]? = some (.str c7))
    (h8 : row[8]? = some (.str c8)) (h10 : row[10]? = some (.str c10))
    (hc : c0 ≠ "-" ∧ c0 ≠ "#REF!") :
    classifyRow acc row = .ok (acc.push
      { NoPanggil := c0, Judul := c1, BIBID := c2, Bahasa := c3, Aksara := c4,
        Media := c5, Halaman := c6, Dimensi := c7,
        Status := finalStatus c8 c10, LinkOPAC := c10 }) := by
  unfold classifyRow
  rw [(cellString_ok_iff row 0 c0).2 h0, (cellString_ok_iff row 1 c1).2 h1,
    (cellString_ok_iff row 2 c2).2 h2, (cellString_ok_iff row 3 c3).2 h3,
    (cellString_ok_iff row 4 c4).2 h4, (cellString_ok_iff row 5 c5).2 h5,
    (cellString_ok_iff row 6 c6).2 h6, (cellString_ok_iff row 7 c7).2 h7,
    (cellString_ok_iff row 8 c8).2 h8, (cellString_ok_iff row 10 c10).2 h10]
  simp [hc.1, hc.2, Acc.push, bind, Except.bind, pure, Except.pure]

theorem cellString_cases (row : Row) (i : Nat) :
    (∃ s, cellString row i = .ok s ∧ row[i]? = some (.str s) ∧ isText row[i]? = true) ∨
    (∃ e, cellString row i = .error e ∧ isText row[i]? = false) := by
  unfold cellString
  cases h : row[i]? with
  | none => right; exact ⟨_, rfl, rfl⟩
  | some c =>
    cases c with
    | str s => left; exact ⟨s, rfl, rfl, rfl⟩
    | num n => right; exact ⟨_, rfl, rfl⟩
    | bool b => right; exact ⟨_, rfl, rfl⟩
    | null => right; exact ⟨_, rfl, rfl⟩

theorem classifyRow_cases (acc : Acc) (row : Row) :
    (badRow row = true ∧ ∃ e, classifyRow acc row = .error e) ∨
    (badRow row = false ∧ isSkipped row = true ∧ classifyRow acc row = .ok acc) ∨
    (badRow row = false ∧ isSkipped row = false ∧
      ∃ m s, classifyRow acc row = .ok (acc.push m) ∧ fieldsOf m = cellsOf row ∧
        row[8]? = some (.str s) ∧ m.Status = finalStatus s m.LinkOPAC) := by
  rcases cellString_cases row 0 with ⟨c0, e0, h0, t0⟩ | ⟨e, e0, t0⟩
  · by_cases hc : c0 = "-" ∨ c0 = "#REF!"
    · right; left
      refine ⟨?_, ?_, classifyRow_skip acc row c0 h0 hc⟩
      · rcases hc with rfl | rfl <;> simp [badRow, isSkipped, h0, isText]
      · rcases hc with rfl | rfl <;> simp [isSkipped, h0]
    · have hc1 : c0 ≠ "-" ∧ c0 ≠ "#REF!" := by
        constructor
        · intro h; exact hc (Or.inl h)
        · intro h; exact hc (Or.inr h)
      have hs : isSkipped row = false := by simp [isSkipped, h0, hc1.1, hc1.2]
      rcases cellString_cases row 1 with ⟨c1, e1, h1, t1⟩ | ⟨e, e1, t1⟩
      swap
      · exact Or.inl ⟨by simp [badRow, textColumns, hs, *], e,
          by simp [classifyRow, *, bind, Except.bind, pure, Except.pure]⟩
      rcases cellString_cases row 2 with ⟨c2, e2, h2, t2⟩ | ⟨e, e2, t2⟩
      swap
      · exact Or.inl ⟨by simp [badRow, textColumns, hs, *], e,
          by simp [classifyRow, *, bind, Except.bind, pure, Except.pure]⟩
      rcases cellString_cases row 3 with ⟨c3, e3, h3, t3⟩ | ⟨e, e3, t3⟩
      swap
      · exact Or.inl ⟨by simp [badRow, textColumns, hs, *], e,
          by simp [classifyRow, *, bind, Except.bind, pure, Except.pure]⟩
      rcases cellString_cases row 4 with ⟨c4, e4, h4, t4⟩ | ⟨e, e4, t4⟩
      swap
      · exact Or.inl ⟨by simp [badRow, textColumns, hs, *], e,
          by simp [classifyRow, *, bind, Except.bind, pure, Except.pure]⟩
      rcases cellString_cases row 5 with ⟨c5, e5, h5, t5⟩ | ⟨e, e5, t5⟩
      swap
      · exact Or.inl ⟨by simp [badRow, textColumns, hs, *], e,
          by simp [classifyRow, *, bind, Except.bind, pure, Except.pure]⟩
      rcases cellString_cases row 6 with ⟨c6, e6, h6, t6⟩ | ⟨e, e6, t6⟩
      swap
      · exact Or.inl ⟨by simp [badRow, textColumns, hs, *], e,
          by simp [classifyRow, *, bind, Except.bind, pure, Except.pure]⟩
      rcases cellString_cases row 7 with ⟨c7, e7, h7, t7⟩ | ⟨e, e7, t7⟩
      swap
      · exact Or.inl ⟨by simp [badRow, textColumns, hs, *], e,
          by simp [classifyRow, *, bind, Except.bind, pure, Except.pure]⟩
      rcases cellString_cases row 8 with ⟨c8, e8, h8, t8⟩ | ⟨e, e8, t8⟩
      swap
      · exact Or.inl ⟨by simp [badRow, textColumns, hs, *], e,
          by simp [classifyRow, *, bind, Except.bind, pure, Except.pure]⟩
      rcases cellString_cases row 10 with ⟨c10, e10, h10, t10⟩ | ⟨e, e10, t10⟩
      swap
      · exact Or.inl ⟨by simp [badRow, textColumns, hs, *], e,
          by simp [classifyRow, *, bind, Except.bind, pure, Except.pure]⟩
      right; right
      refine ⟨by simp [badRow, textColumns, hs, isText, *], hs, _, c8,
        classifyRow_record acc row c0 c1 c2 c3 c4 c5 c6 c7 c8 c10 h0 h1 h2 h3 h4 h5 h6 h7 h8 h10 hc1,
        by simp [fieldsOf, cellsOf, *], h8, rfl⟩
  · left
    refine ⟨by simp [badRow, t0], e, ?_⟩
    unfold classifyRow
    rw [e0]; rfl

theorem isSkipped_iff (row : Row) :
    isSkipped row = true ↔ ∃ c, row[0]? = some (.str c) ∧ (c = "-" ∨ c = "#REF!") := by
  unfold isSkipped
  constructor
  · intro h
    simp only [Bool.or_eq_true, beq_iff_eq] at h
    rcases h with h | h
    · exact ⟨"-", h, Or.inl rfl⟩
    · exact ⟨"#REF!", h, Or.inr rfl⟩
  · rintro ⟨c, h, rfl | rfl⟩ <;> simp [h]

theorem classifyRows_append (acc : Acc) (xs ys : List Row) :
    classifyRows acc (xs ++ ys) =
      match classifyRows acc xs with
      | .error e => .error e
      | .ok a => classifyRows a ys := by
  induction xs generalizing acc with
  | nil => rfl
  | cons x xs ih =>
    simp only [List.cons_append, classifyRows]
    cases classifyRow acc x with
    | error e => rfl
    | ok a => exact ih a

theorem classifyRows_insert_skipped (acc : Acc) (before after : List Row) (row : Row)
    (h : isSkipped row = true) :
    classifyRows acc (before ++ row :: after) = classifyRows acc (before ++ after) := by
  obtain ⟨c, h0, hc⟩ := (isSkipped_iff row).1 h
  rw [classifyRows_append, classifyRows_append]
  cases classifyRows acc before with
  | error e => rfl
  | ok a => simp only [classifyRows, classifyRow_skip a row c h0 hc]

theorem getSheetsData_of_ne_nil (rows : List Row) (h : rows ≠ []) :
    getSheetsData rows =
      match classifyRows Acc.init rows with
      | .error e => .error e
      | .ok acc => .ok (pageOf acc) := by
  unfold getSheetsData
  have : (rows.length == 0) = false := by
    cases rows with
    | nil => exact absurd rfl h
    | cons r rs => rfl
  rw [this]
  rfl

theorem getSheetsData_of_ok (rows : List Row) (acc : Acc) (h : rows ≠ [])
    (hacc : classifyRows Acc.init rows = .ok acc) :
    getSheetsData rows = .ok (pageOf acc) := by
  rw [getSheetsData_of_ne_nil rows h, hacc]

theorem finalStatus_unggah_no_link (status : String)
    (h : stringsContains status "unggah" = true) :
    finalStatus status "-" = "post processing" := by
  simp [finalStatus, h]

theorem finalStatus_unggah_link (status link : String)
    (h : stringsContains status "unggah" = true) (hl : link ≠ "-") :
    finalStatus status link = "unggah" := by
  simp [finalStatus, h, hl]

theorem ne_unggah_of_not_contains (status : String)
    (h : stringsContains status "unggah" = false) : status ≠ "unggah" := by
  rintro rfl
  exact absurd h (by decide)

theorem finalStatus_other (status link : String)
    (h : stringsContains status "unggah" = false) :
    finalStatus status link = status := by
  simp [finalStatus, h, ne_unggah_of_not_contains status h]

theorem classifyRow_text (acc : Acc) (c0 c1 c2 c3 c4 c5 c6 c7 c8 c10 : String)
    (c9 : Cell) (more : List Cell) (hc : c0 ≠ "-" ∧ c0 ≠ "#REF!") :
    classifyRow acc (.str c0 :: .str c1 :: .str c2 :: .str c3 :: .str c4 :: .str c5 ::
        .str c6 :: .str c7 :: .str c8 :: c9 :: .str c10 :: more) =
      .ok (acc.push
        { NoPanggil := c0, Judul := c1, BIBID := c2, Bahasa := c3, Aksara := c4,
          Media := c5, Halaman := c6, Dimensi := c7,
          Status := finalStatus c8 c10, LinkOPAC := c10 }) :=
  classifyRow_record acc _ c0 c1 c2 c3 c4 c5 c6 c7 c8 c10 (by simp) (by simp) (by simp)
    (by simp) (by simp) (by simp) (by simp) (by simp) (by simp) (by simp) hc

theorem classifyRows_cons_ok (acc res : Acc) (row : Row) (rows : List Row)
    (h : classifyRows acc (row :: rows) = .ok res) :
    ∃ a, classifyRow acc row = .ok a ∧ classifyRows a rows = .ok res := by
  simp only [classifyRows] at h
  cases hrow : classifyRow acc row with
  | error e => rw [hrow] at h; cases h
  | ok a => rw [hrow] at h; exact ⟨a, rfl, h⟩

theorem classifyRow_ok_cases (acc a : Acc) (row : Row) (h : classifyRow acc row = .ok a) :
    (isSkipped row = true ∧ a = acc) ∨
    (isSkipped row = false ∧ ∃ m s, a = acc.push m ∧ fieldsOf m = cellsOf row ∧
      row[8]? = some (.str s) ∧ m.Status = finalStatus s m.LinkOPAC) := by
  rcases classifyRow_cases acc row with ⟨_, e, he⟩ | ⟨_, hs, hok⟩ | ⟨_, hs, m, s, hok, hrest⟩
  · rw [he] at h; cases h
  · rw [hok] at h; cases h; exact Or.inl ⟨hs, rfl⟩
  · rw [hok] at h; cases h; exact Or.inr ⟨hs, m, s, rfl, hrest⟩

/-- Induction over the loop: a property of the state that every counted and
appended record preserves holds of the final state. -/
theorem classifyRows_invariant (P : Acc → Prop)
    (hstep : ∀ a m s, P a → m.Status = finalStatus s m.LinkOPAC → P (a.push m))
    (rows : List Row) (acc res : Acc) (h0 : P acc)
    (h : classifyRows acc rows = .ok res) : P res := by
  induction rows generalizing acc with
  | nil =>
    simp only [classifyRows] at h
    cases h
    exact h0
  | cons row rows ih =>
    obtain ⟨a, hrow, hrest⟩ := classifyRows_cons_ok acc res row rows h
    rcases classifyRow_ok_cases acc a row hrow with ⟨_, rfl⟩ | ⟨_, m, s, rfl, _, _, hm⟩
    · exact ih a h0 hrest
    · exact ih _ (hstep acc m s h0 hm) hrest

theorem push_manuskrips (acc : Acc) (m : Manuskrip) :
    (acc.push m).manuskrips = acc.manuskrips ++ [m] := by
  simp only [Acc.push, countStatus]
  split_ifs <;> rfl

theorem push_manuskripsCount (acc : Acc) (m : Manuskrip) :
    (acc.push m).manuskripsCount = acc.manuskripsCount + 1 := by
  simp only [Acc.push, countStatus]
  split_ifs <;> rfl

theorem push_unggahCount (acc : Acc) (m : Manuskrip) :
    (acc.push m).unggahCount =
      acc.unggahCount + (if m.Status = "unggah" then 1 else 0) := by
  simp only [Acc.push, countStatus]
  split_ifs <;> simp_all

theorem push_postProcessingCount (acc : Acc) (m : Manuskrip) :
    (acc.push m).postProcessingCount =
      acc.postProcessingCount + (if m.Status = "post processing" then 1 else 0) := by
  simp only [Acc.push, countStatus]
  split_ifs <;> simp_all

theorem push_pemotretanCount (acc : Acc) (m : Manuskrip) :
    (acc.push m).pemotretanCount =
      acc.pemotretanCount + (if m.Status = "pemotretan" then 1 else 0) := by
  simp only [Acc.push, countStatus]
  split_ifs <;> simp_all

theorem push_penelusuranCount (acc : Acc) (m : Manuskrip) :
    (acc.push m).penelusuranCount =
      acc.penelusuranCount +
        (if m.Status ≠ "unggah" ∧ m.Status ≠ "post processing" ∧ m.Status ≠ "pemotretan"
          then 1 else 0) := by
  simp only [Acc.push, countStatus]
  split_ifs <;> simp_all

theorem classifyRows_records (rows : List Row) (acc res : Acc)
    (h : classifyRows acc rows = .ok res) :
    res.manuskrips.map fieldsOf =
      acc.manuskrips.map fieldsOf ++ (rows.filter fun r => !isSkipped r).map cellsOf := by
  induction rows generalizing acc with
  | nil =>
    simp only [classifyRows] at h
    cases h
    simp
  | cons row rows ih =>
    obtain ⟨a, hrow, hrest⟩ := classifyRows_cons_ok acc res row rows h
    rcases classifyRow_ok_cases acc a row hrow with ⟨hs, rfl⟩ | ⟨hs, m, s, rfl, hf, _, _⟩
    · rw [ih a hrest]
      simp [List.filter_cons, hs]
    · rw [ih _ hrest, push_manuskrips]
      simp [List.filter_cons, hs, hf]

theorem classifyRows_error_iff (rows : List Row) (acc : Acc) :
    (∃ e, classifyRows acc rows = .error e) ↔ ∃ row ∈ rows, badRow row = true := by
  induction rows generalizing acc with
  | nil => simp [classifyRows]
  | cons row rows ih =>
    simp only [classifyRows, List.mem_cons, exists_eq_or_imp]
    rcases classifyRow_cases acc row with ⟨hb, e, he⟩ | ⟨hb, _, hok⟩ | ⟨hb, _, m, s, hok, _⟩
    · rw [he]
      simp [hb]
    · rw [hok]
      simp only [hb, Bool.false_eq_true, false_or]
      exact ih acc
    · rw [hok]
      simp only [hb, Bool.false_eq_true, false_or]
      exact ih _

theorem getSheetsData_error_iff (rows : List Row) :
    (∃ e, getSheetsData rows = .error e) ↔ ∃ e, classifyRows Acc.init rows = .error e := by
  cases rows with
  | nil => simp [getSheetsData, classifyRows]
  | cons r rs =>
    rw [getSheetsData_of_ne_nil _ (by simp)]
    cases classifyRows Acc.init (r :: rs) with
    | error e => simp
    | ok a => simp

theorem badRow_iff (row : Row) :
    badRow row = true ↔
      (isText row[0]? = false ∨
        ∃ c, row[0]? = some (.str c) ∧ c ≠ "-" ∧ c ≠ "#REF!" ∧
          ∃ i ∈ textColumns, isText row[i]? = false) := by
  rcases cellString_cases row 0 with ⟨c, _, h0, t0⟩ | ⟨_, _, t0⟩
  · have hsk : isSkipped row = true ↔ (c = "-" ∨ c = "#REF!") := by
      rw [isSkipped_iff]
      constructor
      · rintro ⟨d, hd, hd2⟩
        rw [h0] at hd
        cases hd
        exact hd2
      · intro hc
        exact ⟨c, h0, hc⟩
    constructor
    · intro hb
      right
      simp only [badRow, t0, Bool.not_true, Bool.false_or, Bool.and_eq_true,
        Bool.not_eq_true', List.any_eq_true] at hb
      obtain ⟨hns, i, hi, hti⟩ := hb
      have hnc : ¬ (c = "-" ∨ c = "#REF!") := by
        intro hc
        rw [hsk.2 hc] at hns
        cases hns
      exact ⟨c, h0, fun h => hnc (Or.inl h), fun h => hnc (Or.inr h), i, hi, hti⟩
    · rintro (hf | ⟨d, hd, hd1, hd2, i, hi, hti⟩)
      · rw [t0] at hf
        cases hf
      · rw [h0] at hd
        cases hd
        have hns : isSkipped row = false := by
          cases hsr : isSkipped row with
          | false => rfl
          | true =>
            rcases hsk.1 hsr with hc | hc
            · exact absurd hc hd1
            · exact absurd hc hd2
        simp only [badRow, t0, hns, Bool.not_true, Bool.not_false, Bool.false_or,
          Bool.true_and, List.any_eq_true, Bool.not_eq_true']
        exact ⟨i, hi, hti⟩
  · simp [badRow, t0]

/-! ## C1: rows with a placeholder call number -/

/-- C1, as amended: a row whose call number (cell 0) is the text "-" or "#REF!"
is skipped by the loop, so inserting it at any position leaves the loop result
(record slice, five counters, or the abort) unchanged from every start state;
when the sequence it is inserted into is not empty the value returned by
getSheetsData is unchanged too, and the row on its own yields the aggregate
with no record and all five counts 0. -/
theorem skipped_row_insertion (before after : List Row) (row : Row) (c : String)
    (h0 : row[0]? = some (.str c)) (hc : c = "-" ∨ c = "#REF!") :
    (∀ acc, classifyRows acc (before ++ row :: after) = classifyRows acc (before ++ after)) ∧
    (before ++ after ≠ [] →
      getSheetsData (before ++ row :: after) = getSheetsData (before ++ after)) ∧
    getSheetsData [row] = .ok (pageOf Acc.init) := by
  have hskip : isSkipped row = true := (isSkipped_iff row).2 ⟨c, h0, hc⟩
  refine ⟨fun acc => classifyRows_insert_skipped acc before after row hskip, ?_, ?_⟩
  · intro hne
    rw [getSheetsData_of_ne_nil _ hne, getSheetsData_of_ne_nil _ (by simp),
      classifyRows_insert_skipped Acc.init before after row hskip]
  · rw [getSheetsData_of_ne_nil _ (by simp)]
    simp only [classifyRows, classifyRow_skip Acc.init row c h0 hc]

/-- Witness for C1 as amended: the row ["-", "Title B"] inserted after the
example row, and on its own. -/
theorem skipped_row_insertion_witness :
    ([.str "-", .str "Title B"] : Row)[0]? = some (.str "-") ∧
    [rowA1] ++ [] ≠ [] ∧
    getSheetsData ([rowA1] ++ [.str "-", .str "Title B"] :: []) = getSheetsData ([rowA1] ++ []) ∧
    getSheetsData [[.str "-", .str "Title B"]] = .ok (pageOf Acc.init) ∧
    (pageOf Acc.init).get "Manuskrips" = some (.records []) ∧
    (pageOf Acc.init).get "TotalManuskrips" = some (.int 0) :=
  have h := skipped_row_insertion [rowA1] [] [.str "-", .str "Title B"] "-" rfl (Or.inl rfl)
  ⟨rfl, by simp, h.2.1 (by simp), h.2.2, rfl, rfl⟩

/-- C1, counterexample: for the empty sequence getSheetsData returns the empty
map, in which the record sequence and the counts are absent; after the row
["-", "Title B"] is inserted it returns a map that holds an empty record
sequence and the counts 0, so the returned value has changed. -/
theorem skipped_row_into_empty_changes_result :
    getSheetsData ([] ++ []) = .ok [] ∧
    PageData.get [] "TotalManuskrips" = none ∧
    PageData.get [] "Manuskrips" = none ∧
    getSheetsData ([] ++ [.str "-", .str "Title B"] :: []) = .ok (pageOf Acc.init) ∧
    (pageOf Acc.init).get "TotalManuskrips" = some (.int 0) ∧
    (pageOf Acc.init).get "Manuskrips" = some (.records []) ∧
    getSheetsData ([] ++ [.str "-", .str "Title B"] :: []) ≠ getSheetsData ([] ++ []) := by
  refine ⟨rfl, rfl, rfl, rfl, rfl, rfl, ?_⟩
  intro h
  have h2 : (Except.ok (pageOf Acc.init) : Except Abort PageData) = .ok [] := h
  injection h2 with h3
  simp [pageOf] at h3

/-! ## C5: the empty result set -/

/-- C5, as amended: for the empty row sequence getSheetsData raises no error
and returns the empty map: the record sequence, the total and the four bucket
counts are all absent from it (the five counters are 0 only as local
variables, which the loop leaves untouched). -/
theorem empty_input_returns_empty_map :
    getSheetsData [] = .ok [] ∧
    (∀ pd, getSheetsData [] = .ok pd →
      pd.get "Manuskrips" = none ∧ pd.get "TotalManuskrips" = none ∧
      pd.get "TotalUnggah" = none ∧ pd.get "TotalPostProcessing" = none ∧
      pd.get "TotalPemotretan" = none ∧ pd.get "TotalPenelusuran" = none) ∧
    classifyRows Acc.init [] = .ok Acc.init := by
  refine ⟨rfl, ?_, rfl⟩
  intro pd h
  have h2 : (Except.ok [] : Except Abort PageData) = .ok pd := h
  injection h2 with h3
  subst h3
  exact ⟨rfl, rfl, rfl, rfl, rfl, rfl⟩

/-- C5, counterexample: the map returned for the empty row sequence stores
neither a total of 0 nor a bucket count of 0. -/
theorem empty_input_counts_not_zero :
    ¬ (∃ pd, getSheetsData [] = .ok pd ∧ pd.get "TotalManuskrips" = some (.int 0)) ∧
    ¬ (∃ pd, getSheetsData [] = .ok pd ∧ pd.get "TotalUnggah" = some (.int 0)) ∧
    ¬ (∃ pd, getSheetsData [] = .ok pd ∧ pd.get "TotalPostProcessing" = some (.int 0)) ∧
    ¬ (∃ pd, getSheetsData [] = .ok pd ∧ pd.get "TotalPemotretan" = some (.int 0)) ∧
    ¬ (∃ pd, getSheetsData [] = .ok pd ∧ pd.get "TotalPenelusuran" = some (.int 0)) := by
  have key : ∀ pd, getSheetsData [] = .ok pd → pd = [] := by
    intro pd h
    have h2 : (Except.ok [] : Except Abort PageData) = .ok pd := h
    injection h2 with h3
    exact h3.symm
  refine ⟨?_, ?_, ?_, ?_, ?_⟩ <;>
  · rintro ⟨pd, h, hget⟩
    rw [key pd h] at hget
    exact absurd hget (by simp [PageData.get])

/-! ## C2, C3, C10: the final status of one row and the bucket it is counted in -/

/-- C2: a row with at least 11 cells whose cells 0-8 and 10 are text, whose
call number is neither "-" nor "#REF!", whose raw status contains "unggah" and
whose catalog link is exactly "-" is appended as a record with final status
"post processing"; it adds 1 to the total and to the post-processing counter
and nothing to the upload, photography and tracing counters.  Alone in the
sequence it makes getSheetsData return post-processing count 1, total 1 and
the other three counts 0. -/
theorem unggah_without_link (acc : Acc) (c0 c1 c2 c3 c4 c5 c6 c7 status : String)
    (c9 : Cell) (more : List Cell)
    (hc : c0 ≠ "-" ∧ c0 ≠ "#REF!") (hs : stringsContains status "unggah" = true) :
    classifyRow acc (.str c0 :: .str c1 :: .str c2 :: .str c3 :: .str c4 :: .str c5 ::
        .str c6 :: .str c7 :: .str status :: c9 :: .str "-" :: more) =
      .ok { manuskrips := acc.manuskrips ++
              [{ NoPanggil := c0, Judul := c1, BIBID := c2, Bahasa := c3, Aksara := c4,
                 Media := c5, Halaman := c6, Dimensi := c7,
                 Status := "post processing", LinkOPAC := "-" }],
            manuskripsCount := acc.manuskripsCount + 1,
            unggahCount := acc.unggahCount,
            postProcessingCount := acc.postProcessingCount + 1,
            pemotretanCount := acc.pemotretanCount,
            penelusuranCount := acc.penelusuranCount } ∧
    getSheetsData [.str c0 :: .str c1 :: .str c2 :: .str c3 :: .str c4 :: .str c5 ::
        .str c6 :: .str c7 :: .str status :: c9 :: .str "-" :: more] =
      .ok [("Manuskrips", .records
              [{ NoPanggil := c0, Judul := c1, BIBID := c2, Bahasa := c3, Aksara := c4,
                 Media := c5, Halaman := c6, Dimensi := c7,
                 Status := "post processing", LinkOPAC := "-" }]),
           ("TotalManuskrips", .int 1), ("TotalUnggah", .int 0),
           ("TotalPostProcessing", .int 1), ("TotalPemotretan", .int 0),
           ("TotalPenelusuran", .int 0)] := by
  have step : ∀ a : Acc, classifyRow a (.str c0 :: .str c1 :: .str c2 :: .str c3 ::
        .str c4 :: .str c5 :: .str c6 :: .str c7 :: .str status :: c9 :: .str "-" :: more) =
      .ok { manuskrips := a.manuskrips ++
              [{ NoPanggil := c0, Judul := c1, BIBID := c2, Bahasa := c3, Aksara := c4,
                 Media := c5, Halaman := c6, Dimensi := c7,
                 Status := "post processing", LinkOPAC := "-" }],
            manuskripsCount := a.manuskripsCount + 1,
            unggahCount := a.unggahCount,
            postProcessingCount := a.postProcessingCount + 1,
            pemotretanCount := a.pemotretanCount,
            penelusuranCount := a.penelusuranCount } := by
    intro a
    rw [classifyRow_text a c0 c1 c2 c3 c4 c5 c6 c7 status "-" c9 more hc,
      finalStatus_unggah_no_link status hs]
    simp [Acc.push, countStatus]
  refine ⟨step acc, ?_⟩
  rw [getSheetsData_of_ne_nil _ (by simp)]
  simp only [classifyRows, step Acc.init]
  rfl

/-- Witness for C2: the end-to-end example row of the specification. -/
theorem unggah_without_link_witness :
    ("A1" ≠ "-" ∧ "A1" ≠ "#REF!") ∧ stringsContains "unggah" "unggah" = true ∧
    getSheetsData [rowA1] =
      .ok [("Manuskrips", .records
              [{ NoPanggil := "A1", Judul := "Title A", BIBID := "B1", Bahasa := "id",
                 Aksara := "jawi", Media := "manuscript", Halaman := "10",
                 Dimensi := "20x30", Status := "post processing", LinkOPAC := "-" }]),
           ("TotalManuskrips", .int 1), ("TotalUnggah", .int 0),
           ("TotalPostProcessing", .int 1), ("TotalPemotretan", .int 0),
           ("TotalPenelusuran", .int 0)] :=
  ⟨⟨by decide, by decide⟩, by decide,
    (unggah_without_link Acc.init "A1" "Title A" "B1" "id" "jawi" "manuscript" "10" "20x30"
      "unggah" (.str "x") [] ⟨by decide, by decide⟩ (by decide)).2⟩

/-- C3: a row with at least 11 cells whose cells 0-8 and 10 are text, whose
call number is neither "-" nor "#REF!", whose raw status contains "unggah"
anywhere and whose catalog link is any text other than "-" is appended as a
record with final status "unggah"; it adds 1 to the total and to the upload
counter and nothing to the post-processing, photography and tracing
counters. -/
theorem unggah_with_link (acc : Acc) (c0 c1 c2 c3 c4 c5 c6 c7 status link : String)
    (c9 : Cell) (more : List Cell)
    (hc : c0 ≠ "-" ∧ c0 ≠ "#REF!") (hs : stringsContains status "unggah" = true)
    (hl : link ≠ "-") :
    classifyRow acc (.str c0 :: .str c1 :: .str c2 :: .str c3 :: .str c4 :: .str c5 ::
        .str c6 :: .str c7 :: .str status :: c9 :: .str link :: more) =
      .ok { manuskrips := acc.manuskrips ++
              [{ NoPanggil := c0, Judul := c1, BIBID := c2, Bahasa := c3, Aksara := c4,
                 Media := c5, Halaman := c6, Dimensi := c7,
                 Status := "unggah", LinkOPAC := link }],
            manuskripsCount := acc.manuskripsCount + 1,
            unggahCount := acc.unggahCount + 1,
            postProcessingCount := acc.postProcessingCount,
            pemotretanCount := acc.pemotretanCount,
            penelusuranCount := acc.penelusuranCount } := by
  rw [classifyRow_text acc c0 c1 c2 c3 c4 c5 c6 c7 status link c9 more hc,
    finalStatus_unggah_link status link hs hl]
  simp [Acc.push, countStatus]

/-- Witness for C3: the raw statuses "sudah unggah" and "unggah ulang" with a
catalog link, the second one on a row of twelve cells with a number in
column 9. -/
theorem unggah_with_link_witness :
    (("A1" ≠ "-" ∧ "A1" ≠ "#REF!") ∧ stringsContains "sudah unggah" "unggah" = true ∧
      "http://opac/1" ≠ "-" ∧
      classifyRow Acc.init [.str "A1", .str "T", .str "B", .str "id", .str "jawi", .str "m",
          .str "10", .str "20x30", .str "sudah unggah", .str "x", .str "http://opac/1"] =
        .ok { manuskrips := [{ NoPanggil := "A1", Judul := "T", BIBID := "B", Bahasa := "id",
                               Aksara := "jawi", Media := "m", Halaman := "10",
                               Dimensi := "20x30", Status := "unggah",
                               LinkOPAC := "http://opac/1" }],
              manuskripsCount := 1, unggahCount := 1, postProcessingCount := 0,
              pemotretanCount := 0, penelusuranCount := 0 }) ∧
    (stringsContains "unggah ulang" "unggah" = true ∧
      classifyRow Acc.init [.str "A2", .str "T", .str "B", .str "id", .str "jawi", .str "m",
          .str "10", .str "20x30", .str "unggah ulang", .num 7, .str "", .null] =
        .ok { manuskrips := [{ NoPanggil := "A2", Judul := "T", BIBID := "B", Bahasa := "id",
                               Aksara := "jawi", Media := "m", Halaman := "10",
                               Dimensi := "20x30", Status := "unggah", LinkOPAC := "" }],
              manuskripsCount := 1, unggahCount := 1, postProcessingCount := 0,
              pemotretanCount := 0, penelusuranCount := 0 }) :=
  ⟨⟨⟨by decide, by decide⟩, by decide, by decide,
      unggah_with_link Acc.init "A1" "T" "B" "id" "jawi" "m" "10" "20x30" "sudah unggah"
        "http://opac/1" (.str "x") [] ⟨by decide, by decide⟩ (by decide) (by decide)⟩,
    ⟨by decide,
      unggah_with_link Acc.init "A2" "T" "B" "id" "jawi" "m" "10" "20x30" "unggah ulang"
        "" (.num 7) [.null] ⟨by decide, by decide⟩ (by decide) (by decide)⟩⟩

/-- C10: a non-skipped row (at least 11 cells, cells 0-8 and 10 text) whose raw
status does not contain "unggah" is appended with its raw status stored
verbatim, whatever the catalog link is; it is counted in the post-processing
bucket when the raw status is exactly "post processing", in the photography
bucket when it is exactly "pemotretan", and in the tracing bucket otherwise,
and never in the upload bucket. -/
theorem status_without_unggah (acc : Acc) (c0 c1 c2 c3 c4 c5 c6 c7 status link : String)
    (c9 : Cell) (more : List Cell)
    (hc : c0 ≠ "-" ∧ c0 ≠ "#REF!") (hs : stringsContains status "unggah" = false) :
    classifyRow acc (.str c0 :: .str c1 :: .str c2 :: .str c3 :: .str c4 :: .str c5 ::
        .str c6 :: .str c7 :: .str status :: c9 :: .str link :: more) =
      .ok { manuskrips := acc.manuskrips ++
              [{ NoPanggil := c0, Judul := c1, BIBID := c2, Bahasa := c3, Aksara := c4,
                 Media := c5, Halaman := c6, Dimensi := c7,
                 Status := status, LinkOPAC := link }],
            manuskripsCount := acc.manuskripsCount + 1,
            unggahCount := acc.unggahCount,
            postProcessingCount :=
              acc.postProcessingCount + (if status = "post processing" then 1 else 0),
            pemotretanCount :=
              acc.pemotretanCount + (if status = "pemotretan" then 1 else 0),
            penelusuranCount :=
              acc.penelusuranCount +
                (if status = "post processing" ∨ status = "pemotretan" then 0 else 1) } := by
  rw [classifyRow_text acc c0 c1 c2 c3 c4 c5 c6 c7 status link c9 more hc,
    finalStatus_other status link hs]
  have hu : status ≠ "unggah" := ne_unggah_of_not_contains status hs
  by_cases hp : status = "post processing"
  · subst hp
    simp [Acc.push, countStatus]
  · by_cases hf : status = "pemotretan"
    · subst hf
      simp [Acc.push, countStatus]
    · simp [Acc.push, countStatus, hu, hp, hf]

/-- Witness for C10: the raw statuses "selesai", "", "Unggah" and "penelusuran"
are stored unchanged and counted in the tracing bucket; "post processing" and
"pemotretan" with the link "-" keep their value and their own bucket. -/
theorem status_without_unggah_witness :
    ("A1" ≠ "-" ∧ "A1" ≠ "#REF!") ∧
    (stringsContains "selesai" "unggah" = false ∧
      classifyRow Acc.init [.str "A1", .str "T", .str "B", .str "id", .str "jawi", .str "m",
          .str "10", .str "20x30", .str "selesai", .str "x", .str "http://opac/1"] =
        .ok { manuskrips := [{ NoPanggil := "A1", Judul := "T", BIBID := "B", Bahasa := "id",
                               Aksara := "jawi", Media := "m", Halaman := "10",
                               Dimensi := "20x30", Status := "selesai", LinkOPAC := "http://opac/1" }],
              manuskripsCount := 1, unggahCount := 0, postProcessingCount := 0,
              pemotretanCount := 0, penelusuranCount := 1 }) ∧
    (stringsContains "" "unggah" = false ∧
      classifyRow Acc.init [.str "A1", .str "T", .str "B", .str "id", .str "jawi", .str "m",
          .str "10", .str "20x30", .str "", .str "x", .str "-"] =
        .ok { manuskrips := [{ NoPanggil := "A1", Judul := "T", BIBID := "B", Bahasa := "id",
                               Aksara := "jawi", Media := "m", Halaman := "10",
                               Dimensi := "20x30", Status := "", LinkOPAC := "-" }],
              manuskripsCount := 1, unggahCount := 0, postProcessingCount := 0,
              pemotretanCount := 0, penelusuranCount := 1 }) ∧
    (stringsContains "Unggah" "unggah" = false ∧
      classifyRow Acc.init [.str "A1", .str "T", .str "B", .str "id", .str "jawi", .str "m",
          .str "10", .str "20x30", .str "Unggah", .str "x", .str "http://opac/1"] =
        .ok { manuskrips := [{ NoPanggil := "A1", Judul := "T", BIBID := "B", Bahasa := "id",
                               Aksara := "jawi", Media := "m", Halaman := "10",
                               Dimensi := "20x30", Status := "Unggah", LinkOPAC := "http://opac/1" }],
              manuskripsCount := 1, unggahCount := 0, postProcessingCount := 0,
              pemotretanCount := 0, penelusuranCount := 1 }) ∧
    (stringsContains "post processing" "unggah" = false ∧
      classifyRow Acc.init [.str "A1", .str "T", .str "B", .str "id", .str "jawi", .str "m",
          .str "10", .str "20x30", .str "post processing", .str "x", .str "-"] =
        .ok { manuskrips := [{ NoPanggil := "A1", Judul := "T", BIBID := "B", Bahasa := "id",
                               Aksara := "jawi", Media := "m", Halaman := "10",
                               Dimensi := "20x30", Status := "post processing", LinkOPAC := "-" }],
              manuskripsCount := 1, unggahCount := 0, postProcessingCount := 1,
              pemotretanCount := 0, penelusuranCount := 0 }) ∧
    (stringsContains "pemotretan" "unggah" = false ∧
      classifyRow Acc.init [.str "A1", .str "T", .str "B", .str "id", .str "jawi", .str "m",
          .str "10", .str "20x30", .str "pemotretan", .str "x", .str "-"] =
        .ok { manuskrips := [{ NoPanggil := "A1", Judul := "T", BIBID := "B", Bahasa := "id",
                               Aksara := "jawi", Media := "m", Halaman := "10",
                               Dimensi := "20x30", Status := "pemotretan", LinkOPAC := "-" }],
              manuskripsCount := 1, unggahCount := 0, postProcessingCount := 0,
              pemotretanCount := 1, penelusuranCount := 0 }) ∧
    (stringsContains "penelusuran" "unggah" = false ∧
      classifyRow Acc.init [.str "A1", .str "T", .str "B", .str "id", .str "jawi", .str "m",
          .str "10", .str "20x30", .str "penelusuran", .str "x", .str "-"] =
        .ok { manuskrips := [{ NoPanggil := "A1", Judul := "T", BIBID := "B", Bahasa := "id",
                               Aksara := "jawi", Media := "m", Halaman := "10",
                               Dimensi := "20x30", Status := "penelusuran", LinkOPAC := "-" }],
              manuskripsCount := 1, unggahCount := 0, postProcessingCount := 0,
              pemotretanCount := 0, penelusuranCount := 1 }) :=
  ⟨⟨by decide, by decide⟩,
    ⟨by decide,
      status_without_unggah Acc.init "A1" "T" "B" "id" "jawi" "m" "10" "20x30" "selesai"
        "http://opac/1" (.str "x") [] ⟨by decide, by decide⟩ (by decide)⟩,
    ⟨by decide,
      status_without_unggah Acc.init "A1" "T" "B" "id" "jawi" "m" "10" "20x30" ""
        "-" (.str "x") [] ⟨by decide, by decide⟩ (by decide)⟩,
    ⟨by decide,
      status_without_unggah Acc.init "A1" "T" "B" "id" "jawi" "m" "10" "20x30" "Unggah"
        "http://opac/1" (.str "x") [] ⟨by decide, by decide⟩ (by decide)⟩,
    ⟨by decide,
      status_without_unggah Acc.init "A1" "T" "B" "id" "jawi" "m" "10" "20x30" "post processing"
        "-" (.str "x") [] ⟨by decide, by decide⟩ (by decide)⟩,
    ⟨by decide,
      status_without_unggah Acc.init "A1" "T" "B" "id" "jawi" "m" "10" "20x30" "pemotretan"
        "-" (.str "x") [] ⟨by decide, by decide⟩ (by decide)⟩,
    ⟨by decide,
      status_without_unggah Acc.init "A1" "T" "B" "id" "jawi" "m" "10" "20x30" "penelusuran"
        "-" (.str "x") [] ⟨by decide, by decide⟩ (by decide)⟩⟩

/-! ## C4, C7, C9: invariants of the loop state -/

/-- C4: whenever the loop over the rows completes, the four bucket counters
add up to the total counter; for a non-empty sequence these counters are the
values getSheetsData returns under its five count keys. -/
theorem bucket_counts_sum_to_total (rows : List Row) (acc : Acc)
    (h : classifyRows Acc.init rows = .ok acc) :
    acc.unggahCount + acc.postProcessingCount + acc.pemotretanCount +
        acc.penelusuranCount = acc.manuskripsCount ∧
    (rows ≠ [] → getSheetsData rows = .ok (pageOf acc)) := by
  refine ⟨?_, fun hne => getSheetsData_of_ok rows acc hne h⟩
  refine classifyRows_invariant
    (fun a => a.unggahCount + a.postProcessingCount + a.pemotretanCount +
      a.penelusuranCount = a.manuskripsCount) ?_ rows Acc.init acc rfl h
  intro a m s ha hm
  clear hm
  beta_reduce at ha
  simp only [push_unggahCount, push_postProcessingCount, push_pemotretanCount,
    push_penelusuranCount, push_manuskripsCount]
  generalize m.Status = t
  split_ifs <;> first | omega | (exfalso; simp_all)

/-- Witness for C4: the sample sheet gives 1 + 2 + 1 + 1 = 5. -/
theorem bucket_counts_sum_to_total_witness :
    classifyRows Acc.init sampleRows = .ok sampleAcc ∧
    sampleAcc.unggahCount + sampleAcc.postProcessingCount + sampleAcc.pemotretanCount +
        sampleAcc.penelusuranCount = sampleAcc.manuskripsCount ∧
    sampleAcc.manuskripsCount = 5 ∧
    getSheetsData sampleRows = .ok (pageOf sampleAcc) :=
  have h := bucket_counts_sum_to_total sampleRows sampleAcc rfl
  ⟨rfl, h.1, rfl, h.2 (by simp [sampleRows])⟩

/-- C7: whenever the loop completes, the upload, post-processing and
photography counters equal the number of output records whose final status is
exactly "unggah", "post processing" and "pemotretan", the tracing counter
equals the number of records with any other final status, and the four
together count every record once; for a non-empty sequence these are the
values getSheetsData returns. -/
theorem counters_count_records (rows : List Row) (acc : Acc)
    (h : classifyRows Acc.init rows = .ok acc) :
    acc.unggahCount = acc.manuskrips.countP (fun m => decide (m.Status = "unggah")) ∧
    acc.postProcessingCount =
      acc.manuskrips.countP (fun m => decide (m.Status = "post processing")) ∧
    acc.pemotretanCount = acc.manuskrips.countP (fun m => decide (m.Status = "pemotretan")) ∧
    acc.penelusuranCount =
      acc.manuskrips.countP (fun m => decide (m.Status ≠ "unggah" ∧
        m.Status ≠ "post processing" ∧ m.Status ≠ "pemotretan")) ∧
    acc.unggahCount + acc.postProcessingCount + acc.pemotretanCount +
        acc.penelusuranCount = acc.manuskrips.length ∧
    (rows ≠ [] → getSheetsData rows = .ok (pageOf acc)) := by
  have key := classifyRows_invariant
    (fun a =>
      a.unggahCount = a.manuskrips.countP (fun m => decide (m.Status = "unggah")) ∧
      a.postProcessingCount =
        a.manuskrips.countP (fun m => decide (m.Status = "post processing")) ∧
      a.pemotretanCount = a.manuskrips.countP (fun m => decide (m.Status = "pemotretan")) ∧
      a.penelusuranCount =
        a.manuskrips.countP (fun m => decide (m.Status ≠ "unggah" ∧
          m.Status ≠ "post processing" ∧ m.Status ≠ "pemotretan")) ∧
      a.unggahCount + a.postProcessingCount + a.pemotretanCount +
          a.penelusuranCount = a.manuskrips.length) ?_ rows Acc.init acc
    ⟨rfl, rfl, rfl, rfl, rfl⟩ h
  · exact ⟨key.1, key.2.1, key.2.2.1, key.2.2.2.1, key.2.2.2.2,
      fun hne => getSheetsData_of_ok rows acc hne h⟩
  · intro a m s ha hm
    clear hm
    obtain ⟨h1, h2, h3, h4, h5⟩ := ha
    simp only [push_unggahCount, push_postProcessingCount, push_pemotretanCount,
      push_penelusuranCount, push_manuskrips, List.countP_append, List.countP_cons,
      List.countP_nil, List.length_append, List.length_singleton, ← h1, ← h2, ← h3, ← h4]
    generalize m.Status = t
    refine ⟨?_, ?_, ?_, ?_, ?_⟩
    · split_ifs <;> simp_all
    · split_ifs <;> simp_all
    · split_ifs <;> simp_all
    · split_ifs <;> simp_all
    · split_ifs <;> first | omega | (exfalso; simp_all)

/-- Witness for C7: on the sample sheet one record is "unggah", two are
"post processing", one is "pemotretan" and one ("selesai") is anything else. -/
theorem counters_count_records_witness :
    classifyRows Acc.init sampleRows = .ok sampleAcc ∧
    sampleAcc.unggahCount =
      sampleAcc.manuskrips.countP (fun m => decide (m.Status = "unggah")) ∧
    sampleAcc.penelusuranCount =
      sampleAcc.manuskrips.countP (fun m => decide (m.Status ≠ "unggah" ∧
        m.Status ≠ "post processing" ∧ m.Status ≠ "pemotretan")) ∧
    sampleAcc.penelusuranCount = 1 :=
  have h := counters_count_records sampleRows sampleAcc rfl
  ⟨rfl, h.1, h.2.2.2.1, rfl⟩

/-- C9: whenever the loop completes, every output record whose final status
contains "unggah" has the status exactly "unggah" and a catalog link other
than "-", and the upload counter is the number of records with status
"unggah" and a link other than "-"; for a non-empty sequence this is the state
getSheetsData returns. -/
theorem uploaded_records_have_link (rows : List Row) (acc : Acc)
    (h : classifyRows Acc.init rows = .ok acc) :
    (∀ m ∈ acc.manuskrips, stringsContains m.Status "unggah" = true →
      m.Status = "unggah" ∧ m.LinkOPAC ≠ "-") ∧
    acc.unggahCount =
      acc.manuskrips.countP (fun m => decide (m.Status = "unggah" ∧ m.LinkOPAC ≠ "-")) ∧
    (rows ≠ [] → getSheetsData rows = .ok (pageOf acc)) := by
  have key := classifyRows_invariant
    (fun a =>
      (∀ m ∈ a.manuskrips, stringsContains m.Status "unggah" = true →
        m.Status = "unggah" ∧ m.LinkOPAC ≠ "-") ∧
      a.unggahCount =
        a.manuskrips.countP (fun m => decide (m.Status = "unggah" ∧ m.LinkOPAC ≠ "-")))
    ?_ rows Acc.init acc ⟨by simp [Acc.init], rfl⟩ h
  · exact ⟨key.1, key.2, fun hne => getSheetsData_of_ok rows acc hne h⟩
  · intro a m s ha hm
    obtain ⟨hall, hcount⟩ := ha
    have hnew : stringsContains m.Status "unggah" = true →
        m.Status = "unggah" ∧ m.LinkOPAC ≠ "-" := by
      intro hcont
      cases hs : stringsContains s "unggah" with
      | false =>
        rw [finalStatus_other s m.LinkOPAC hs] at hm
        rw [hm, hs] at hcont
        cases hcont
      | true =>
        by_cases hl : m.LinkOPAC = "-"
        · rw [hl, finalStatus_unggah_no_link s hs] at hm
          rw [hm] at hcont
          exact absurd hcont (by decide)
        · exact ⟨by rw [hm, finalStatus_unggah_link s m.LinkOPAC hs hl], hl⟩
    refine ⟨?_, ?_⟩
    · intro r hr
      rw [push_manuskrips, List.mem_append, List.mem_singleton] at hr
      rcases hr with hr | rfl
      · exact hall r hr
      · exact hnew
    · rw [push_unggahCount, push_manuskrips, List.countP_append, ← hcount]
      simp only [List.countP_cons, List.countP_nil]
      by_cases hu : m.Status = "unggah"
      · have hl := (hnew (by rw [hu]; decide)).2
        simp [hu, hl]
      · simp [hu]

/-- Witness for C9: on the sample sheet the only record whose status contains
"unggah" carries the link "http://opac/2". -/
theorem uploaded_records_have_link_witness :
    classifyRows Acc.init sampleRows = .ok sampleAcc ∧
    (∀ m ∈ sampleAcc.manuskrips, stringsContains m.Status "unggah" = true →
      m.Status = "unggah" ∧ m.LinkOPAC ≠ "-") ∧
    sampleAcc.unggahCount = 1 :=
  have h := uploaded_records_have_link sampleRows sampleAcc rfl
  ⟨rfl, h.1, rfl⟩

/-! ## C6: the output records -/

/-- C6: whenever the loop completes, the output records are the rows that
are not skipped (call number other than "-" and "#REF!"), in source order and
one record per row, with call number, title, bib id, language, script, media,
pages, dimensions and catalog link equal to cells 0-7 and 10 of the row; the
total counter is the length of the record sequence; for a non-empty sequence
this is the state getSheetsData returns. -/
theorem records_are_unskipped_rows (rows : List Row) (acc : Acc)
    (h : classifyRows Acc.init rows = .ok acc) :
    acc.manuskrips.map fieldsOf = (rows.filter fun r => !isSkipped r).map cellsOf ∧
    acc.manuskripsCount = acc.manuskrips.length ∧
    (rows ≠ [] → getSheetsData rows = .ok (pageOf acc)) := by
  refine ⟨?_, ?_, fun hne => getSheetsData_of_ok rows acc hne h⟩
  · have := classifyRows_records rows Acc.init acc h
    simpa [Acc.init] using this
  · refine classifyRows_invariant (fun a => a.manuskripsCount = a.manuskrips.length) ?_
      rows Acc.init acc rfl h
    intro a m s ha _
    beta_reduce at ha
    rw [push_manuskripsCount, push_manuskrips, List.length_append, List.length_singleton, ha]

/-- Witness for C6: the sample sheet, in which the example row occurs twice
and yields two records, and two rows are skipped. -/
theorem records_are_unskipped_rows_witness :
    classifyRows Acc.init sampleRows = .ok sampleAcc ∧
    sampleAcc.manuskrips.map fieldsOf =
      (sampleRows.filter fun r => !isSkipped r).map cellsOf ∧
    sampleAcc.manuskrips.length = 5 ∧ sampleRows.length = 7 ∧
    sampleAcc.manuskrips.take 2 = [recordA1, recordA1] ∧
    sampleAcc.manuskripsCount = sampleAcc.manuskrips.length :=
  have h := records_are_unskipped_rows sampleRows sampleAcc rfl
  ⟨rfl, h.1, rfl, rfl, rfl, h.2.1⟩

/-! ## C8: when the loop aborts -/

/-- C8: the loop of getSheetsData, and with it getSheetsData, aborts exactly
when some row has cell 0 missing or not text, or has a text call number other
than "-" and "#REF!" and one of the cells 1-8, 10 missing or not text.  In
particular a sequence whose rows all have at least 11 cells, all text, is
classified without abort, and a row whose call number is "-" or "#REF!" is
passed over without abort whatever its other cells are. -/
theorem abort_iff_data_shape_error (rows : List Row) :
    ((∃ e, classifyRows Acc.init rows = .error e) ↔
      ∃ row ∈ rows, isText row[0]? = false ∨
        ∃ c, row[0]? = some (.str c) ∧ c ≠ "-" ∧ c ≠ "#REF!" ∧
          ∃ i ∈ [1, 2, 3, 4, 5, 6, 7, 8, 10], isText row[i]? = false) ∧
    ((∃ e, getSheetsData rows = .error e) ↔ ∃ e, classifyRows Acc.init rows = .error e) ∧
    ((∀ row ∈ rows, 11 ≤ row.length ∧ ∀ c ∈ row, isText (some c) = true) →
      ∃ pd, getSheetsData rows = .ok pd) ∧
    (∀ (acc : Acc) (c : String) (others : List Cell), c = "-" ∨ c = "#REF!" →
      classifyRow acc (.str c :: others) = .ok acc) := by
  have main : (∃ e, classifyRows Acc.init rows = .error e) ↔
      ∃ row ∈ rows, isText row[0]? = false ∨
        ∃ c, row[0]? = some (.str c) ∧ c ≠ "-" ∧ c ≠ "#REF!" ∧
          ∃ i ∈ [1, 2, 3, 4, 5, 6, 7, 8, 10], isText row[i]? = false := by
    rw [classifyRows_error_iff]
    constructor
    · rintro ⟨row, hmem, hb⟩
      exact ⟨row, hmem, (badRow_iff row).1 hb⟩
    · rintro ⟨row, hmem, hb⟩
      exact ⟨row, hmem, (badRow_iff row).2 hb⟩
  refine ⟨main, getSheetsData_error_iff rows, ?_, ?_⟩
  · intro hall
    cases hres : getSheetsData rows with
    | ok pd => exact ⟨pd, rfl⟩
    | error e =>
      exfalso
      obtain ⟨row, hmem, hbad⟩ := main.1 ((getSheetsData_error_iff rows).1 ⟨e, hres⟩)
      obtain ⟨hlen, htext⟩ := hall row hmem
      have cell : ∀ i, i < 11 → isText row[i]? = true := by
        intro i hi
        have hi2 : i < row.length := by omega
        rw [List.getElem?_eq_getElem hi2]
        exact htext _ (List.getElem_mem hi2)
      rcases hbad with h0 | ⟨c, _, _, _, i, hi, hti⟩
      · rw [cell 0 (by omega)] at h0
        cases h0
      · have hi11 : i < 11 := by
          simp only [List.mem_cons, List.mem_singleton, List.not_mem_nil, or_false] at hi
          omega
        rw [cell i hi11] at hti
        cases hti
  · intro acc c others hc
    exact classifyRow_skip acc (.str c :: others) c (by simp) hc

/-- Examples for C8: a number in the title column, a row of ten cells and
an empty row abort; the all-text example row does not, nor does a "#REF!" row
that has a number and an empty cell after the call number. -/
theorem abort_iff_data_shape_error_witness :
    getSheetsData [rowA1, [.str "A2", .num 3]] = .error (.notString 1) ∧
    (∃ e, getSheetsData [rowA1, [.str "A2", .num 3]] = .error e) ∧
    getSheetsData [rowA1.take 10] = .error (.indexOutOfRange 10) ∧
    getSheetsData [[]] = .error (.indexOutOfRange 0) ∧
    (∃ pd, getSheetsData [rowA1] = .ok pd) ∧
    classifyRow sampleAcc [.str "#REF!", .num 3, .null] = .ok sampleAcc :=
  have h := abort_iff_data_shape_error [rowA1, [.str "A2", .num 3]]
  ⟨rfl,
    h.2.1.2 (h.1.2 ⟨[.str "A2", .num 3], by simp,
      Or.inr ⟨"A2", rfl, by decide, by decide, 1, by simp, rfl⟩⟩),
    rfl, rfl,
    (abort_iff_data_shape_error [rowA1]).2.2.1 (by simp [rowA1, isText]),
    (abort_iff_data_shape_error []).2.2.2 sampleAcc "#REF!" [.num 3, .null] (Or.inr rfl)⟩

end Tracker
